import Mathlib

/-!
Shallow embedding of the chat server in `src/server.py`.

The server keeps a global list `messages`; `do_GET` on `/messages` returns
the Python slice `messages[since:]` together with `len(messages)`, and
`do_POST` on `/send` parses a JSON body, rejects blank text, and appends a
new message whose `id` is the current length of the store.  Python string
stripping, `int()` parsing and list slicing (including the negative-index
semantics) are embedded explicitly below.  Exceptions that the handler code
does not catch (`ValueError` from `int`, `AttributeError` from calling
`.strip()` on a non-string) are modelled with `Except.error`; the single
`except json.JSONDecodeError` branch of `do_POST` is the `notJson` case.
`datetime.now().strftime(...)` is an input parameter `now`.
-/

namespace ChatServer

/-- A JSON scalar as it can appear in the request body: the embedding only
needs to distinguish strings from non-strings (a non-string `message` makes
`message.strip()` raise `AttributeError` in `do_POST`). -/
inductive PyVal where
  | str : String → PyVal
  | int : Int → PyVal
deriving DecidableEq, Repr

/-- The dict appended to `messages` in `do_POST` (server.py lines 74-79):
`{'id': len(messages), 'username': username, 'message': message,
'timestamp': datetime.now().strftime('%Y-%m-%d %H:%M:%S')}`.  `username` is
stored exactly as it came out of `data.get('username', 'Anonymous')`, so it
is an arbitrary JSON value; `message` has passed the `.strip()` check, so it
is a string. -/
structure Message where
  id : Nat
  username : PyVal
  message : String
  timestamp : String
deriving DecidableEq, Repr

/-- The global `messages` list (server.py line 14). -/
abbrev Store := List Message

/-- The whitespace characters stripped by Python's `str.strip()` (the ASCII
ones; the source never relies on the further Unicode space characters). -/
def isPySpace (c : Char) : Bool :=
  c = ' ' || c = '\t' || c = '\n' || c = '\r' || c = '\x0b' || c = '\x0c'

/-- Python `s.strip()`: remove leading and trailing whitespace. -/
def pyStrip (s : String) : String :=
  String.mk (((s.data.dropWhile isPySpace).reverse.dropWhile isPySpace).reverse)

/-- Value of a nonempty all-digit character list, `none` otherwise. -/
def digitsVal? (cs : List Char) : Option Nat :=
  if cs.isEmpty then none
  else if cs.all (fun c => c.isDigit) then
    some (cs.foldl (fun a c => a * 10 + (c.toNat - 48)) 0)
  else none

/-- Python `int(s)` on a string: strip whitespace, allow one optional sign,
then require a nonempty run of decimal digits; `none` models the
`ValueError` raised otherwise. -/
def pyInt? (s : String) : Option Int :=
  match (s.data.dropWhile isPySpace).reverse.dropWhile isPySpace |>.reverse with
  | '-' :: rest => (digitsVal? rest).map (fun n => -(n : Int))
  | '+' :: rest => (digitsVal? rest).map (fun n => (n : Int))
  | t => (digitsVal? t).map (fun n => (n : Int))

/-- Python `l[i:]` for an `Int` index `i`: for `i ≥ 0` drop the first `i`
elements (an over-long index yields `[]`), for `i < 0` the slice starts at
`max 0 (len l + i)`, i.e. it keeps the last `-i` elements. -/
def pySliceFrom {α : Type} (l : List α) (i : Int) : List α :=
  if 0 ≤ i then l.drop i.toNat
  else l.drop ((l.length : Int) + i).toNat

/-- The parsed body of a POST request: either the `json.loads` call raised
`JSONDecodeError`, or it produced an object with optional `username` and
`message` fields. -/
inductive PostBody where
  | notJson : PostBody
  | obj : Option PyVal → Option PyVal → PostBody

/-- The Python exceptions that the handler code can raise and does not
catch. -/
inductive PyError where
  | valueError : PyError
  | attributeError : PyError
deriving DecidableEq, Repr

/-- The JSON payload of a handler response. -/
inductive RespBody where
  | errorMsg : String → RespBody
  | fetch : List Message → Nat → RespBody
  | posted : Message → RespBody
  | statusInfo : Nat → RespBody
  | htmlPage : RespBody
deriving DecidableEq, Repr

/-- One incoming request: a GET carries its path and the optional `since`
query parameter; a POST carries its path and parsed body. -/
inductive Request where
  | get : String → Option String → Request
  | post : String → PostBody → Request

deriving instance DecidableEq for Except

/-- One run of `ChatHandler.do_GET` / `do_POST` (server.py lines 35-90)
against store `s`, at wall-clock string `now`.  Returns the store afterwards
and either the HTTP status code with its JSON body, or the uncaught Python
exception.  `do_GET /messages` parses `since` with `int` (absent means
`int(0) = 0`, line 45), slices `messages[since:]` and reports
`len(messages)` as `total` (lines 47-53).  `do_POST /send` reads
`data.get('username', 'Anonymous')` and `data.get('message', '')`
(lines 67-68), rejects a message that is blank after `.strip()` (lines
70-72), and otherwise appends `{'id': len(messages), ...}` (lines 74-82). -/
def execRequest (s : Store) (now : String) : Request → Store × Except PyError (Nat × RespBody)
  | .get path since =>
    if path = "/" then
      (s, .ok (200, .htmlPage))
    else if path = "/messages" then
      match (match since with
             | none => some (0 : Int)
             | some q => pyInt? q) with
      | none => (s, .error .valueError)
      | some k => (s, .ok (200, .fetch (pySliceFrom s k) s.length))
    else if path = "/status" then
      (s, .ok (200, .statusInfo s.length))
    else
      (s, .ok (404, .errorMsg "Not found"))
  | .post path body =>
    if path = "/send" then
      match body with
      | .notJson => (s, .ok (400, .errorMsg "Invalid JSON"))
      | .obj u m =>
        let username := u.getD (.str "Anonymous")
        match m.getD (.str "") with
        | .str text =>
          if pyStrip text = "" then
            (s, .ok (400, .errorMsg "Message cannot be empty"))
          else
            let msg : Message := ⟨s.length, username, text, now⟩
            (s ++ [msg], .ok (200, .posted msg))
        | .int _ => (s, .error .attributeError)
    else
      (s, .ok (404, .errorMsg "Not found"))

/-- The data of one POST `/send` request with a string `message` field:
optional `username` value, the text, and the wall-clock string at which the
server handles it. -/
structure PostInput where
  username : Option PyVal
  text : String
  now : String

/-- Run a sequence of POST `/send` requests, each handled to completion
before the next starts.  `HTTPServer` (server.py line 289) is the plain
single-threaded `socketserver` server - it processes one request at a time -
so posts issued in parallel by distinct clients are executed exactly like
this, as consecutive whole handler runs. -/
def runPosts (s : Store) : List PostInput → Store
  | [] => s
  | inp :: rest =>
      runPosts (execRequest s inp.now (.post "/send" (.obj inp.username (some (.str inp.text))))).1 rest

/-- Two fixed messages used as concrete store contents. -/
def m0 : Message := ⟨0, .str "alice", "first", "t0"⟩

/-- Second fixed message, id 1. -/
def m1 : Message := ⟨1, .str "bob", "second", "t1"⟩

/-- A POST `/send` whose text is not blank appends one message whose id is
the current store length and echoes it back. -/
theorem execPost_valid (s : Store) (now : String) (u : Option PyVal) (t : String)
    (h : pyStrip t ≠ "") :
    execRequest s now (.post "/send" (.obj u (some (.str t))))
      = (s ++ [⟨s.length, u.getD (.str "Anonymous"), t, now⟩],
         .ok (200, .posted ⟨s.length, u.getD (.str "Anonymous"), t, now⟩)) := by
  simp [execRequest, h]

/-- Running a sequence of valid posts appends exactly one message per post,
and the appended ids are the consecutive integers starting at the initial
store length. -/
theorem runPosts_structure (inputs : List PostInput) :
    ∀ s : Store, (∀ x ∈ inputs, pyStrip x.text ≠ "") →
      ∃ new : Store, runPosts s inputs = s ++ new
        ∧ new.map (fun m => m.id) = List.range' s.length inputs.length := by
  induction inputs with
  | nil => exact fun s _ => ⟨[], by simp [runPosts]⟩
  | cons inp rest ih =>
    intro s h
    have hv : pyStrip inp.text ≠ "" := h inp (by simp)
    have hrest : ∀ x ∈ rest, pyStrip x.text ≠ "" := fun x hx => h x (by simp [hx])
    obtain ⟨new, h1, h2⟩ :=
      ih (s ++ [⟨s.length, inp.username.getD (.str "Anonymous"), inp.text, inp.now⟩]) hrest
    refine ⟨⟨s.length, inp.username.getD (.str "Anonymous"), inp.text, inp.now⟩ :: new, ?_, ?_⟩
    · rw [runPosts, execPost_valid s inp.now inp.username inp.text hv]
      simpa using h1
    · simp only [List.length_append, List.length_cons, List.length_nil, Nat.zero_add] at h2
      simp [h2, List.range'_succ]

/-- If the images of `f` over `l` are the consecutive integers starting at
`b`, then filtering `l` by `k ≤ f x` is the same as dropping the first
`k - b` elements. -/
theorem filter_le_eq_drop {α : Type} (f : α → Nat) (k : Nat) :
    ∀ (l : List α) (b : Nat), l.map f = List.range' b l.length →
      l.filter (fun x => decide (k ≤ f x)) = l.drop (k - b) := by
  intro l
  induction l with
  | nil => intro b _; simp
  | cons x xs ih =>
    intro b h
    rw [List.length_cons, List.range'_succ, List.map_cons] at h
    have hx : f x = b := (List.cons.injEq _ _ _ _ ▸ h).1
    have hxs : xs.map f = List.range' (b + 1) xs.length := (List.cons.injEq _ _ _ _ ▸ h).2
    by_cases hk : k ≤ b
    · have h0 : k - b = 0 := Nat.sub_eq_zero_of_le hk
      have h1 : k - (b + 1) = 0 := Nat.sub_eq_zero_of_le (Nat.le_succ_of_le hk)
      have hrest := ih (b + 1) hxs
      rw [h1, List.drop_zero] at hrest
      rw [h0, List.drop_zero, List.filter_cons]
      simp [hx, hk, hrest]
    · have hb : b < k := Nat.lt_of_not_le hk
      have hpos : k - b = (k - (b + 1)) + 1 := by omega
      have hfx : decide (k ≤ f x) = false := by simp [hx]; omega
      rw [List.filter_cons, hfx, ih (b + 1) hxs, hpos]
      simp [List.drop_succ_cons]

/-- Python slicing with a nonnegative start index is `List.drop`. -/
theorem pySliceFrom_nonneg (s : Store) (K : Int) (hK : 0 ≤ K) :
    pySliceFrom s K = s.drop K.toNat := by
  simp [pySliceFrom, hK]

/-- On a store whose ids are its positions, slicing from a nonnegative `K`
returns exactly the messages whose id is at least `K`. -/
theorem fetch_filter (s : Store) (K : Int) (hK : 0 ≤ K)
    (hinv : s.map (fun m => m.id) = List.range s.length) :
    pySliceFrom s K = s.filter (fun m => decide (K ≤ (m.id : Int))) := by
  rw [pySliceFrom_nonneg s K hK]
  have h1 : s.filter (fun m => decide (K.toNat ≤ m.id)) = s.drop (K.toNat - 0) :=
    filter_le_eq_drop (fun m => m.id) K.toNat s 0 (by rw [hinv, List.range_eq_range'])
  rw [Nat.sub_zero] at h1
  rw [← h1]
  apply List.filter_congr
  intro m _
  simp [Int.toNat_le]

/-- If the ids of `l` are the consecutive integers starting at `b`, the
message at position `i` has id `b + i`. -/
theorem idsFromRange (l : List Message) :
    ∀ (b : Nat), l.map (fun m => m.id) = List.range' b l.length →
      ∀ i (hi : i < l.length), (l.get ⟨i, hi⟩).id = b + i := by
  induction l with
  | nil => intro b _ i hi; exact absurd hi (by simp)
  | cons x xs ih =>
    intro b h i hi
    rw [List.length_cons, List.range'_succ, List.map_cons] at h
    have hx : x.id = b := (List.cons.injEq _ _ _ _ ▸ h).1
    have hxs : xs.map (fun m => m.id) = List.range' (b + 1) xs.length :=
      (List.cons.injEq _ _ _ _ ▸ h).2
    cases i with
    | zero => simpa [List.get] using hx
    | succ j =>
      have hj : j < xs.length := by simpa using hi
      have hrec := ih (b + 1) hxs j hj
      simp only [List.get]
      omega

/-- C1: for every sequence of N posts with non-blank text starting from the
empty store, the resulting store has length N and the message at position i
has id i: each append assigns id equal to the store length at creation time
and grows the sequence by exactly one. -/
theorem c1_post_sequence_ids (inputs : List PostInput)
    (h : ∀ x ∈ inputs, pyStrip x.text ≠ "") :
    (runPosts [] inputs).length = inputs.length
    ∧ ∀ i (hi : i < (runPosts [] inputs).length),
        ((runPosts [] inputs).get ⟨i, hi⟩).id = i := by
  obtain ⟨new, h1, h2⟩ := runPosts_structure inputs [] h
  have hr : runPosts [] inputs = new := by simpa using h1
  have hlen : new.length = inputs.length := by
    have := congrArg List.length h2
    simpa using this
  have hm : new.map (fun m => m.id) = List.range' 0 new.length := by
    rw [hlen]; simpa using h2
  rw [hr]
  refine ⟨hlen, ?_⟩
  intro i hi
  have := idsFromRange new 0 hm i hi
  simpa using this

/-- C1 witness: two concrete posts from the empty store. -/
theorem c1_post_sequence_ids_witness :
    (runPosts [] [⟨none, "hello", "t0"⟩, ⟨some (.str "bob"), "hey", "t1"⟩]).length = 2
    ∧ ∀ i (hi : i < (runPosts [] [⟨none, "hello", "t0"⟩,
                                  ⟨some (.str "bob"), "hey", "t1"⟩]).length),
        ((runPosts [] [⟨none, "hello", "t0"⟩,
                       ⟨some (.str "bob"), "hey", "t1"⟩]).get ⟨i, hi⟩).id = i :=
  c1_post_sequence_ids [⟨none, "hello", "t0"⟩, ⟨some (.str "bob"), "hey", "t1"⟩] (by decide)

/-- C2: on a store whose ids equal their positions (the invariant every
reachable store satisfies, see C1), `GET /messages` with a parsed offset
`K ≥ 0` answers 200 with exactly the messages whose id is at least `K`,
in strictly ascending id order, together with `total = N`; that is
`N - K` messages when `K ≤ N`, and an empty list - not an error - when
`K ≥ N`. -/
theorem c2_fetch_since (s : Store) (now q : String) (K : Int)
    (hq : pyInt? q = some K) (hK : 0 ≤ K)
    (hinv : s.map (fun m => m.id) = List.range s.length) :
    (execRequest s now (.get "/messages" (some q))).2
        = Except.ok (200, RespBody.fetch (s.filter (fun m => decide (K ≤ (m.id : Int)))) s.length)
    ∧ (s.filter (fun m => decide (K ≤ (m.id : Int)))).length = s.length - K.toNat
    ∧ ((s.filter (fun m => decide (K ≤ (m.id : Int)))).map (fun m => m.id)).Pairwise (· < ·)
    ∧ ((s.length : Int) ≤ K → s.filter (fun m => decide (K ≤ (m.id : Int))) = []) := by
  have hfilter := fetch_filter s K hK hinv
  refine ⟨?_, ?_, ?_, ?_⟩
  · simp [execRequest, hq, hfilter]
  · rw [← hfilter, pySliceFrom_nonneg s K hK, List.length_drop]
  · have hsub : List.Sublist (s.filter (fun m => decide (K ≤ (m.id : Int)))) s :=
      List.filter_sublist s
    have hmap := List.Sublist.map (fun m => m.id) hsub
    rw [hinv] at hmap
    exact List.Pairwise.sublist hmap (List.pairwise_lt_range s.length)
  · intro hN
    rw [← hfilter, pySliceFrom_nonneg s K hK]
    exact List.drop_eq_nil_of_le (by omega)

/-- C2 witness: a two-message store queried with `since=1`. -/
theorem c2_fetch_since_witness :
    (execRequest [m0, m1] "ts" (.get "/messages" (some "1"))).2
        = Except.ok (200, RespBody.fetch
            (([m0, m1] : Store).filter (fun m => decide ((1 : Int) ≤ (m.id : Int)))) 2)
    ∧ (([m0, m1] : Store).filter (fun m => decide ((1 : Int) ≤ (m.id : Int)))).length
        = 2 - (1 : Int).toNat
    ∧ ((([m0, m1] : Store).filter (fun m => decide ((1 : Int) ≤ (m.id : Int)))).map
        (fun m => m.id)).Pairwise (· < ·)
    ∧ (((2 : Nat) : Int) ≤ (1 : Int) →
        ([m0, m1] : Store).filter (fun m => decide ((1 : Int) ≤ (m.id : Int))) = []) :=
  c2_fetch_since [m0, m1] "ts" "1" 1 (by decide) (by decide) (by decide)

/-- C3: posting text that is empty or all-whitespace leaves the store
unchanged and answers 400 "Message cannot be empty"; no message is
created. -/
theorem c3_blank_text_rejected (s : Store) (now : String) (u : Option PyVal) (t : String)
    (h : ∀ c ∈ t.data, isPySpace c) :
    execRequest s now (.post "/send" (.obj u (some (.str t))))
      = (s, Except.ok (400, RespBody.errorMsg "Message cannot be empty")) := by
  have hstrip : pyStrip t = "" := by
    unfold pyStrip
    rw [List.dropWhile_eq_nil_iff.mpr h]
    rfl
  simp [execRequest, hstrip]

/-- C3 witness: posting a whitespace-only text onto the empty store. -/
theorem c3_blank_text_rejected_witness :
    execRequest [] "ts" (.post "/send" (.obj none (some (.str " \t ")))) =
      ([], Except.ok (400, RespBody.errorMsg "Message cannot be empty")) :=
  c3_blank_text_rejected [] "ts" none " \t " (by decide)

/-- C4 counterexample: posting the text " hi " stores the raw text " hi ",
which differs from its trimmed form "hi" - `do_POST` uses `.strip()` only
in the emptiness test (line 70) and stores `message` untrimmed (line 77),
so the stored text does keep its surrounding whitespace. -/
theorem c4_counterexample :
    (execRequest [] "ts" (.post "/send" (.obj none (some (.str " hi "))))).1
        = [⟨0, .str "Anonymous", " hi ", "ts"⟩]
    ∧ pyStrip " hi " = "hi"
    ∧ (execRequest [] "ts" (.post "/send" (.obj none (some (.str " hi "))))).1
        ≠ [⟨0, .str "Anonymous", pyStrip " hi ", "ts"⟩] := by
  decide

/-- C4 amended: for every successful post, the text field of the stored and
echoed message equals the input text unchanged; trimming is applied only to
decide the emptiness check, never to the stored value. -/
theorem c4_posted_text_raw (s : Store) (now : String) (u : Option PyVal) (t : String)
    (h : pyStrip t ≠ "") :
    execRequest s now (.post "/send" (.obj u (some (.str t))))
      = (s ++ [⟨s.length, u.getD (.str "Anonymous"), t, now⟩],
         Except.ok (200, RespBody.posted ⟨s.length, u.getD (.str "Anonymous"), t, now⟩)) :=
  execPost_valid s now u t h

/-- C4 witness: a post with surrounding whitespace in the text. -/
theorem c4_posted_text_raw_witness :
    execRequest [] "ts" (.post "/send" (.obj none (some (.str " hi "))))
      = ([] ++ [⟨List.length ([] : Store), Option.getD none (.str "Anonymous"), " hi ", "ts"⟩],
         Except.ok (200, RespBody.posted
           ⟨List.length ([] : Store), Option.getD none (.str "Anonymous"), " hi ", "ts"⟩)) :=
  c4_posted_text_raw [] "ts" none " hi " (by decide)

/-- C5 counterexample: a post whose `username` field is present but the
empty string stores the empty username, not "Anonymous" -
`data.get('username', 'Anonymous')` (line 67) substitutes the default only
when the key is absent. -/
theorem c5_counterexample :
    (execRequest [] "ts" (.post "/send" (.obj (some (.str "")) (some (.str "hi"))))).1
        = [⟨0, .str "", "hi", "ts"⟩]
    ∧ PyVal.str "" ≠ PyVal.str "Anonymous" := by
  decide

/-- C5 amended: the stored username is "Anonymous" exactly when the
`username` field is absent from the request body; any supplied value - the
empty string and whitespace-only strings included - is stored as given. -/
theorem c5_username_default (s : Store) (now t : String) (h : pyStrip t ≠ "") :
    (execRequest s now (.post "/send" (.obj none (some (.str t))))).1
        = s ++ [⟨s.length, .str "Anonymous", t, now⟩]
    ∧ ∀ v : PyVal, (execRequest s now (.post "/send" (.obj (some v) (some (.str t))))).1
        = s ++ [⟨s.length, v, t, now⟩] := by
  constructor
  · rw [execPost_valid s now none t h]
    rfl
  · intro v
    rw [execPost_valid s now (some v) t h]
    rfl

/-- C5 witness: absent username versus the explicit empty-string username. -/
theorem c5_username_default_witness :
    (execRequest [] "ts" (.post "/send" (.obj none (some (.str "hi"))))).1
        = [] ++ [⟨List.length ([] : Store), .str "Anonymous", "hi", "ts"⟩]
    ∧ ∀ v : PyVal, (execRequest [] "ts" (.post "/send" (.obj (some v) (some (.str "hi"))))).1
        = [] ++ [⟨List.length ([] : Store), v, "hi", "ts"⟩] :=
  c5_username_default [] "ts" "hi" (by decide)

/-- C6 counterexample: on a two-message store, `GET /messages?since=-1`
returns only the last message - Python's negative slice `messages[-1:]` -
while `since=0` returns both, so a negative offset is not treated as 0. -/
theorem c6_counterexample :
    (execRequest [m0, m1] "ts" (.get "/messages" (some "-1"))).2
      ≠ (execRequest [m0, m1] "ts" (.get "/messages" (some "0"))).2 := by
  decide

/-- C6 amended: for a parsed offset `K < 0`, `GET /messages` follows
Python's negative slice semantics: it answers 200 with the suffix starting
at `max 0 (N + K)` - the last `min N (-K)` messages - and the current
total; this coincides with `since=0` only when `N + K ≤ 0`.  -/
theorem c6_negative_since_slice (s : Store) (now q : String) (K : Int)
    (hq : pyInt? q = some K) (hK : K < 0) :
    (execRequest s now (.get "/messages" (some q))).2
        = Except.ok (200, RespBody.fetch (s.drop ((s.length : Int) + K).toNat) s.length)
    ∧ ((s.length : Int) + K ≤ 0 →
        (execRequest s now (.get "/messages" (some q))).2
          = Except.ok (200, RespBody.fetch s s.length)) := by
  have hs : pySliceFrom s K = s.drop ((s.length : Int) + K).toNat := by
    simp [pySliceFrom, Int.not_le.mpr hK]
  constructor
  · simp [execRequest, hq, hs]
  · intro h0
    have hz : ((s.length : Int) + K).toNat = 0 := by omega
    simp [execRequest, hq, hs, hz]

/-- C6 witness: a one-message store queried with `since=-5`. -/
theorem c6_negative_since_slice_witness :
    (execRequest [m0] "ts" (.get "/messages" (some "-5"))).2
        = Except.ok (200, RespBody.fetch
            (([m0] : Store).drop (((List.length ([m0] : Store) : Int) + (-5)).toNat))
            (List.length ([m0] : Store)))
    ∧ (((List.length ([m0] : Store) : Int) + (-5) ≤ 0) →
        (execRequest [m0] "ts" (.get "/messages" (some "-5"))).2
          = Except.ok (200, RespBody.fetch [m0] (List.length ([m0] : Store)))) :=
  c6_negative_since_slice [m0] "ts" "-5" (-5) (by decide) (by decide)

/-- C7: the request boundary does not recover every error.  A `since`
value that is not a decimal integer makes `int()` raise `ValueError`
(line 45, uncaught in `do_GET`), and a JSON body whose `message` value is
not a string makes `.strip()` raise `AttributeError` (line 70, outside the
single `except json.JSONDecodeError` clause) - both escape the handler
instead of producing a structured 400 response; only the invalid-JSON body
is caught.  The store is unchanged in every one of these cases. -/
theorem c7_uncaught_exceptions :
    (execRequest [] "ts" (.get "/messages" (some "abc"))).2 = Except.error PyError.valueError
    ∧ (execRequest [] "ts" (.post "/send" (.obj none (some (.int 5))))).2
        = Except.error PyError.attributeError
    ∧ (execRequest [] "ts" (.post "/send" .notJson)).2
        = Except.ok (400, RespBody.errorMsg "Invalid JSON")
    ∧ (execRequest [] "ts" (.get "/messages" (some "abc"))).1 = []
    ∧ (execRequest [] "ts" (.post "/send" (.obj none (some (.int 5))))).1 = []
    ∧ (execRequest [] "ts" (.post "/send" .notJson)).1 = [] :=
  ⟨rfl, rfl, rfl, rfl, rfl, rfl⟩

/-- C8: `GET /messages` is read-only and idempotent: it leaves the store
unchanged, and a second evaluation with the same `since` and no intervening
post produces the identical result. -/
theorem c8_fetch_idempotent (s : Store) (now : String) (q : Option String) :
    (execRequest s now (.get "/messages" q)).1 = s
    ∧ (execRequest ((execRequest s now (.get "/messages" q)).1) now (.get "/messages" q)).2
        = (execRequest s now (.get "/messages" q)).2 := by
  have h1 : (execRequest s now (.get "/messages" q)).1 = s := by
    cases q with
    | none => simp [execRequest]
    | some str => cases h : pyInt? str <;> simp [execRequest, h]
  exact ⟨h1, by rw [h1]⟩

/-- C9: posts issued in parallel by M distinct callers are handled one at a
time - `HTTPServer` (server.py line 289) has no threading mix-in, so each
`do_POST` runs to completion before the next request starts.  Under that
serialization, M valid posts from any starting store append exactly M whole
messages whose ids are the consecutive integers starting at the initial
length: distinct, contiguous, no duplicates and no gaps - and every store
a reader can observe is the initial store followed by fully-built
messages. -/
theorem c9_concurrent_posts (s0 : Store) (inputs : List PostInput)
    (h : ∀ x ∈ inputs, pyStrip x.text ≠ "") :
    ∃ new : Store,
      runPosts s0 inputs = s0 ++ new
      ∧ new.map (fun m => m.id) = List.range' s0.length inputs.length
      ∧ (new.map (fun m => m.id)).Nodup
      ∧ new.length = inputs.length := by
  obtain ⟨new, h1, h2⟩ := runPosts_structure inputs s0 h
  refine ⟨new, h1, h2, ?_, ?_⟩
  · rw [h2]
    exact List.nodup_range' _ _
  · have := congrArg List.length h2
    simpa using this

/-- C9 witness: two posts onto a one-message store. -/
theorem c9_concurrent_posts_witness :
    ∃ new : Store,
      runPosts [m0] [⟨none, "a", "t2"⟩, ⟨some (.str "eve"), "b", "t3"⟩] = [m0] ++ new
      ∧ new.map (fun m => m.id)
          = List.range' (List.length ([m0] : Store))
              (List.length [(⟨none, "a", "t2"⟩ : PostInput), ⟨some (.str "eve"), "b", "t3"⟩])
      ∧ (new.map (fun m => m.id)).Nodup
      ∧ new.length
          = List.length [(⟨none, "a", "t2"⟩ : PostInput), ⟨some (.str "eve"), "b", "t3"⟩] :=
  c9_concurrent_posts [m0] [⟨none, "a", "t2"⟩, ⟨some (.str "eve"), "b", "t3"⟩] (by decide)

/-- C10: a POST `/send` whose body is a JSON object with no "message" key
is rejected with 400 "Message cannot be empty" - `data.get('message', '')`
defaults to the empty string, which fails the blank check - not with
"Invalid JSON", and the store is unchanged. -/
theorem c10_missing_message_key (s : Store) (now : String) (u : Option PyVal) :
    execRequest s now (.post "/send" (.obj u none))
      = (s, Except.ok (400, RespBody.errorMsg "Message cannot be empty")) :=
  rfl

end ChatServer
